import Mathlib

/-! Matcher factory and device registry of `src/device.cpp`

A shallow embedding of `matcher_factory` (the topology dispatch that builds a
tree of frame matchers) and of the `device` members that keep the sensor
sequence, the hot-plug validity flag and the extrinsics-group registry,
followed by theorems about them.

Conventions of the embedding:
* a `std::shared_ptr<matcher>` is the tree it points to;
* `profiles[i]` on a `std::vector` is only defined inside the vector, so every
  function that indexes returns `Option`, with `none` standing for an access
  outside the vector;
* a C++ exception is the `Except.error` side of the result;
* `std::map<int, ...>` is its sequence of entries in iteration order
  (ascending key), which is what `std::find_if` walks;
* a `size_t` is a natural number; the conversions to the narrower `int`,
  `unsigned int` and `uint8_t` are the functions `to_int`, `to_unsigned_int`
  and `to_uint8_t`, and a theorem about a value that went through one of them
  states the range in which the conversion is exact;
* a handle (`shared_ptr`, pointer or reference) is the identity of the object
  it refers to, so it is never null.
-/

namespace librealsense

/-! ## Data model -/

/-- Modelled from the spec: the stream-type enumeration `rs2_stream` is declared
in a header that is not part of this file; a stream type is represented by the
integer value of its enumerator. -/
abbrev rs2_stream := Nat

/-- A `stream_interface` object. `addr` is the identity of the object (what a
`stream_interface*` or the `shared_ptr` of `shared_from_this()` compares by);
the other two fields are what `get_unique_id()` and `get_stream_type()`
return. -/
structure stream_interface where
  addr : Nat
  get_unique_id : Int
  get_stream_type : rs2_stream
deriving DecidableEq, Repr

/-- Modelled from the spec: the topology tag `rs2_matchers` is declared in a
header that is not part of this file. The five enumerators are the ones the
`switch` of `matcher_factory::create` names; `other raw` is any remaining value
of the underlying integer, which the `switch` sends to `default:`. -/
inductive rs2_matchers where
  | DI
  | DI_C
  | DLR_C
  | DLR
  | DEFAULT
  | other (raw : Nat)
deriving DecidableEq, Repr

/-- The matcher tree: the three concrete classes the factory instantiates, each
with its constructor arguments. -/
inductive matcher where
  | identity_matcher (stream_id : Int) (stream_type : rs2_stream)
  | frame_number_composite_matcher (matchers : List matcher)
  | timestamp_composite_matcher (matchers : List matcher)

/-! ## `matcher_factory` -/

namespace matcher_factory

/-- Source `matcher_factory::create_identity_matcher` (device.cpp:86-89). -/
def create_identity_matcher (profile : stream_interface) : matcher :=
  matcher.identity_matcher profile.get_unique_id profile.get_stream_type

/-- Source `matcher_factory::create_timestamp_composite_matcher` (device.cpp:90-93). -/
def create_timestamp_composite_matcher (matchers : List matcher) : matcher :=
  matcher.timestamp_composite_matcher matchers

/-- The loop `for (auto& p : profiles) v.push_back(make_shared<identity_matcher>(...))`
shared by `create_DLR_matcher`, `create_DI_matcher` and `create_default_matcher`:
the vector starts empty and each profile appends one identity matcher. -/
def push_identity_matchers (profiles : List stream_interface) : List matcher :=
  profiles.foldl
    (fun v p => v ++ [matcher.identity_matcher p.get_unique_id p.get_stream_type]) []

/-- Source `matcher_factory::create_DLR_matcher` (device.cpp:52-60). -/
def create_DLR_matcher (profiles : List stream_interface) : matcher :=
  let depth_matchers := push_identity_matchers profiles
  matcher.frame_number_composite_matcher depth_matchers

/-- Source `matcher_factory::create_DI_matcher` (device.cpp:68-76). -/
def create_DI_matcher (profiles : List stream_interface) : matcher :=
  let depth_matchers := push_identity_matchers profiles
  matcher.frame_number_composite_matcher depth_matchers

/-- Source `matcher_factory::create_DLR_C_matcher` (device.cpp:47-51); `none` when one
of `profiles[0..3]` is outside the vector. -/
def create_DLR_C_matcher (profiles : List stream_interface) : Option matcher := do
  let p0 ← profiles[0]?
  let p1 ← profiles[1]?
  let p2 ← profiles[2]?
  let p3 ← profiles[3]?
  pure (create_timestamp_composite_matcher
    [create_DLR_matcher [p0, p1, p2], create_identity_matcher p3])

/-- Source `matcher_factory::create_DI_C_matcher` (device.cpp:62-66); `none` when one
of `profiles[0..2]` is outside the vector. -/
def create_DI_C_matcher (profiles : List stream_interface) : Option matcher := do
  let p0 ← profiles[0]?
  let p1 ← profiles[1]?
  let p2 ← profiles[2]?
  pure (create_timestamp_composite_matcher
    [create_DI_matcher [p0, p1], create_identity_matcher p2])

/-- Source `matcher_factory::create_default_matcher` (device.cpp:78-85). -/
def create_default_matcher (profiles : List stream_interface) : matcher :=
  let matchers := push_identity_matchers profiles
  create_timestamp_composite_matcher matchers

/-- Source `matcher_factory::create` (device.cpp:9-46). The `LOG_DEBUG` lines have no
effect on the result and are left out. -/
def create (m : rs2_matchers) (profiles : List stream_interface) : Option matcher :=
  match m with
  | rs2_matchers.DI =>
    if profiles.length < 2 then some (create_default_matcher profiles)
    else some (create_DI_matcher profiles)
  | rs2_matchers.DI_C =>
    if profiles.length < 3 then some (create_default_matcher profiles)
    else create_DI_C_matcher profiles
  | rs2_matchers.DLR_C =>
    if profiles.length < 4 then some (create_default_matcher profiles)
    else create_DLR_C_matcher profiles
  | rs2_matchers.DLR =>
    if profiles.length < 3 then some (create_default_matcher profiles)
    else some (create_DLR_matcher profiles)
  | _ => some (create_default_matcher profiles)

end matcher_factory

/-! ## `device` -/

/-- The exceptions thrown in this file, one constructor per `throw` site (and
`out_of_range` for the one the standard containers throw). -/
inductive exception where
  /-- Source `std::out_of_range`, thrown by `std::map::at` and `std::vector::at`. -/
  | out_of_range
  /-- Source `std::runtime_error("Sensor not found!")`. -/
  | sensor_not_found
  /-- Source `std::runtime_error` with the text "Failed to fetch extrinsics between pin
  stream (pin_id) to given stream (stream_id)". -/
  | failed_to_fetch_extrinsics (pin_id stream_id : Int)
  /-- Source `invalid_value_exception` with the text "Cannot assign sensor - invalid
  subdevice value" followed by the index. -/
  | cannot_assign_sensor (idx : Nat)
  /-- Source `invalid_value_exception("invalid subdevice value")`. -/
  | invalid_subdevice_value
  /-- Source `not_implemented_exception`. -/
  | not_implemented
deriving DecidableEq, Repr

/-- The identity of a sensor object, which is what a
`std::shared_ptr<sensor_interface>` is compared by. -/
abbrev sensor_ptr := Nat

/-- The mapped type of `_extrinsics`: `std::pair<uint32_t, std::shared_ptr<const
stream_interface>>`, the group index and the pin stream. -/
abbrev extrinsics_entry := Nat × stream_interface

/-- The member `_extrinsics`, a `std::map<int, std::pair<uint32_t, ...>>`: its
entries in iteration order. -/
abbrev extrinsics_map := List (Int × extrinsics_entry)

/-- Source `std::map::at`: the mapped value of key `k`, `none` where `at` throws
`std::out_of_range`. -/
def map_at (m : extrinsics_map) (k : Int) : Option extrinsics_entry :=
  (m.find? (fun p => p.1 == k)).map Prod.snd

/-- Source `m[k] = v` on a `std::map`: the entry of `k` is overwritten when there is
one, otherwise a new entry is inserted at its place in ascending key order. -/
def map_assign (m : extrinsics_map) (k : Int) (v : extrinsics_entry) : extrinsics_map :=
  match m with
  | [] => [(k, v)]
  | (k', v') :: rest =>
    if k < k' then (k, v) :: (k', v') :: rest
    else if k = k' then (k, v) :: rest
    else (k', v') :: map_assign rest k v

/-- One element of `rs2_device_list::list`; the field is what
`dev_info.info->get_device_data()` returns. The type `Group` stands for
`platform::backend_device_group`, declared outside this file. -/
structure rs2_device_info (Group : Type) where
  get_device_data : Group

/-- The argument type of the device-changed callback. -/
structure rs2_device_list (Group : Type) where
  list : List (rs2_device_info Group)

/-- The data members of `device` that the functions of this file read or
write. The context handle, the callback id and the mutex are left out. -/
structure device (Group : Type) where
  _group : Group
  _is_valid : Bool
  _device_changed_notifications : Bool
  _sensors : List sensor_ptr
  _extrinsics : extrinsics_map

section
variable {Group : Type} [DecidableEq Group] {Extr : Type}

/-- The member initialisers of `device::device` (device.cpp:95-99): the flag
starts `true`, the two containers start empty. -/
def device.construct (group : Group) (device_changed_notifications : Bool) : device Group :=
  { _group := group
    _is_valid := true
    _device_changed_notifications := device_changed_notifications
    _sensors := []
    _extrinsics := [] }

/-- The `for` loop of the callback (device.cpp:107-114) over the remaining
elements of `removed->list`: the first element whose device data equals
`_group` clears `_is_valid` and returns. -/
def scan_removed (d : device Group) : List (rs2_device_info Group) → device Group
  | [] => d
  | dev_info :: rest =>
    if dev_info.get_device_data = d._group then { d with _is_valid := false }
    else scan_removed d rest

/-- The body of the lambda that `device::device` registers (device.cpp:103-115).
`added` is received and never read. -/
def devices_changed_callback (d : device Group)
    (removed _added : rs2_device_list Group) : device Group :=
  scan_removed d removed.list

/-- Modelled from the spec: the context service, which is not part of this
file, delivers a change notification `(removed, added)` to every registered
callback. The constructor registers the callback only when
`_device_changed_notifications` is set (device.cpp:101), so a device without it
is not called. -/
def deliver_notification (d : device Group)
    (removed added : rs2_device_list Group) : device Group :=
  if d._device_changed_notifications then devices_changed_callback d removed added
  else d

/-- Source `device::register_stream_to_extrinsic_group` (device.cpp:218-233).
`stream.shared_from_this()` is the stream object itself. -/
def register_stream_to_extrinsic_group (d : device Group)
    (stream : stream_interface) (groupd_index : Nat) : device Group :=
  let iter := d._extrinsics.find? (fun p => p.2.1 == groupd_index)
  match iter with
  | none =>
    { d with _extrinsics :=
        map_assign d._extrinsics stream.get_unique_id (groupd_index, stream) }
  | some it =>
    { d with _extrinsics := map_assign d._extrinsics stream.get_unique_id it.2 }

/-- What one call of `device::get_extrinsics` leaves behind: its result, the
calls it made to the calibration graph as `(from, to)` pairs in order, and the
device afterwards. -/
structure extrinsics_outcome (Group Extr : Type) where
  result : Except exception (Nat × Extr)
  graph_queries : List (stream_interface × stream_interface)
  device_after : device Group

/-- Source `device::get_extrinsics` (device.cpp:205-216). The argument
`try_fetch_extrinsics` is the calibration graph of the environment singleton,
which is not part of this file: for `(from, to)` it gives the returned flag and
the transform written through the out-pointer. -/
def get_extrinsics (try_fetch_extrinsics : stream_interface → stream_interface → Bool × Extr)
    (d : device Group) (stream : stream_interface) : extrinsics_outcome Group Extr :=
  let stream_index := stream.get_unique_id
  match map_at d._extrinsics stream_index with
  | none => { result := .error exception.out_of_range, graph_queries := [], device_after := d }
  | some pair =>
    let pin_stream := pair.2
    let fetched := try_fetch_extrinsics pin_stream stream
    if fetched.1 == false then
      { result := .error
          (exception.failed_to_fetch_extrinsics pin_stream.get_unique_id stream.get_unique_id)
        graph_queries := [(pin_stream, stream)]
        device_after := d }
    else
      { result := .ok (pair.1, fetched.2)
        graph_queries := [(pin_stream, stream)]
        device_after := d }

/-- The device after a sequence of `register_stream_to_extrinsic_group` calls,
applied left to right. -/
def register_all (d : device Group) (calls : List (stream_interface × Nat)) : device Group :=
  calls.foldl (fun dev c => register_stream_to_extrinsic_group dev c.1 c.2) d

/-- The device after a sequence of change notifications `(removed, added)`,
delivered left to right. -/
def deliver_all (d : device Group)
    (ns : List (rs2_device_list Group × rs2_device_list Group)) : device Group :=
  ns.foldl (fun dev n => deliver_notification dev n.1 n.2) d

end

/-! ## `device`: the sensor sequence, `hardware_reset`, `create_matcher` -/

/-- The conversion of an integer to the 32-bit `int`: the value modulo `2^32` in
the range `[-2^31, 2^31)`. The result of an `int` subtraction or increment is
passed through it as well, so an overflowing one wraps around. -/
def to_int (x : Int) : Int := (x + 2 ^ 31) % 2 ^ 32 - 2 ^ 31

/-- The conversion `static_cast<unsigned int>` of a `size_t`. -/
def to_unsigned_int (n : Nat) : Nat := n % 2 ^ 32

/-- The conversion of an `int` to the 64-bit `size_t` of a return statement. -/
def to_size_t (x : Int) : Nat := (x % 2 ^ 64).toNat

/-- The conversion of an argument to the `uint8_t` parameter of
`assign_sensor`. -/
def to_uint8_t (n : Nat) : Nat := n % 2 ^ 8

/-- Source `std::vector::at`: the element at position `n`, or the exception
`std::out_of_range` when `n` is not below the size. -/
def vector_at (v : List sensor_ptr) (n : Nat) : Except exception sensor_ptr :=
  match v[n]? with
  | some x => .ok x
  | none => .error exception.out_of_range

/-- What one call of a `device` member leaves behind: the value it returns or
the exception it throws, and the device afterwards. -/
structure call_outcome (Group α : Type) where
  result : Except exception α
  device_after : device Group

/-- Modelled from the spec: `frame_interface` is declared outside this file; the
field is what `get_stream()` returns, the stream the frame belongs to. -/
structure frame_interface where
  get_stream : stream_interface

/-- Modelled from the spec: `frame_holder` is declared outside this file; the
field is the frame it holds. -/
structure frame_holder where
  frame : frame_interface

section
variable {Group : Type}

/-- Source `device::add_sensor` (device.cpp:130-134). -/
def add_sensor (d : device Group) (sensor_base : sensor_ptr) : call_outcome Group Int :=
  let d1 := { d with _sensors := d._sensors ++ [sensor_base] }
  { result := .ok (to_int (to_int d1._sensors.length - 1)), device_after := d1 }

/-- The `try` block of `device::assign_sensor` (device.cpp:140-141).
`_sensors[idx]` is `std::vector::operator[]`, which makes no bounds check and
throws nothing: inside the vector it yields the slot, outside it the behaviour
is undefined, which is the result `none`. -/
def assign_sensor_try (d : device Group) (sensor_base : sensor_ptr) (idx : Nat) :
    Option (call_outcome Group Int) :=
  if idx < d._sensors.length then
    let d1 := { d with _sensors := d._sensors.set idx sensor_base }
    some { result := .ok (to_int (to_int d1._sensors.length - 1)), device_after := d1 }
  else none

/-- Source `device::assign_sensor` (device.cpp:136-147): the `try` block, and the
handler that turns a `std::out_of_range` leaving it into the
`invalid_value_exception`. The argument is converted to the `uint8_t`
parameter first. -/
def assign_sensor (d : device Group) (sensor_base : sensor_ptr) (idx : Nat) :
    Option (call_outcome Group Int) :=
  let idx := to_uint8_t idx
  match assign_sensor_try d sensor_base idx with
  | none => none
  | some out =>
    match out.result with
    | .error exception.out_of_range =>
      some { result := .error (exception.cannot_assign_sensor idx),
             device_after := out.device_after }
    | _ => some out

/-- Source `device::get_sensors_count` (device.cpp:154-157). -/
def get_sensors_count (d : device Group) : Nat :=
  to_unsigned_int d._sensors.length

/-- Source `device::get_sensor`, the non-const form (device.cpp:159-169). The
returned reference is the identity of the sensor object the slot points to. -/
def get_sensor (d : device Group) (subdevice : Nat) : call_outcome Group sensor_ptr :=
  match vector_at d._sensors subdevice with
  | .ok sensor => { result := .ok sensor, device_after := d }
  | .error exception.out_of_range =>
    { result := .error exception.invalid_subdevice_value, device_after := d }
  | .error e => { result := .error e, device_after := d }

/-- Source `device::get_sensor`, the `const` form (device.cpp:182-192). -/
def get_sensor_const (d : device Group) (subdevice : Nat) : call_outcome Group sensor_ptr :=
  match vector_at d._sensors subdevice with
  | .ok sensor => { result := .ok sensor, device_after := d }
  | .error exception.out_of_range =>
    { result := .error exception.invalid_subdevice_value, device_after := d }
  | .error e => { result := .error e, device_after := d }

/-- The `for` loop of `device::find_sensor_idx` (device.cpp:174-178) over the
remaining slots, with the current value of the `int` counter `idx`; the
`throw` after the loop is the case of no slot left. -/
def find_sensor_idx_loop (s : sensor_ptr) : List sensor_ptr → Int → Except exception Nat
  | [], _ => .error exception.sensor_not_found
  | sensor :: rest, idx =>
    if s = sensor then .ok (to_size_t idx)
    else find_sensor_idx_loop s rest (to_int (idx + 1))

/-- Source `device::find_sensor_idx` (device.cpp:171-180); `s` is the address of
the argument. -/
def find_sensor_idx (d : device Group) (s : sensor_ptr) : call_outcome Group Nat :=
  { result := find_sensor_idx_loop s d._sensors 0, device_after := d }

/-- Source `device::hardware_reset` (device.cpp:194-197). -/
def hardware_reset (d : device Group) : call_outcome Group Unit :=
  { result := .error exception.not_implemented, device_after := d }

/-- Source `device::create_matcher` (device.cpp:199-203). -/
def create_matcher (_d : device Group) (frame : frame_holder) : matcher :=
  matcher.identity_matcher frame.frame.get_stream.get_unique_id
    frame.frame.get_stream.get_stream_type

end

/-! ## Matcher factory: theorems -/

namespace matcher_factory

theorem push_identity_matchers_foldl (profiles : List stream_interface) (acc : List matcher) :
    profiles.foldl
      (fun v p => v ++ [matcher.identity_matcher p.get_unique_id p.get_stream_type]) acc
      = acc ++ profiles.map
          (fun p => matcher.identity_matcher p.get_unique_id p.get_stream_type) := by
  induction profiles generalizing acc with
  | nil => simp
  | cons p ps ih => simp [List.foldl_cons, ih]

theorem push_identity_matchers_eq_map (profiles : List stream_interface) :
    push_identity_matchers profiles
      = profiles.map
          (fun p => matcher.identity_matcher p.get_unique_id p.get_stream_type) := by
  unfold push_identity_matchers
  rw [push_identity_matchers_foldl]
  simp

theorem create_default_matcher_eq (profiles : List stream_interface) :
    create_default_matcher profiles
      = matcher.timestamp_composite_matcher
          (profiles.map
            (fun p => matcher.identity_matcher p.get_unique_id p.get_stream_type)) := by
  simp [create_default_matcher, create_timestamp_composite_matcher,
    push_identity_matchers_eq_map]


/-- C1: for a tag among DI, DI_C, DLR, DLR_C and a profile list shorter than
that tag's threshold (2, 3, 3, 4), `create` returns the very tree that
`create DEFAULT` returns, and that tree is a timestamp composite over one
identity matcher per profile, in order. -/
theorem create_below_minimum_eq_default (T : rs2_matchers) (profiles : List stream_interface)
    (h : (T = rs2_matchers.DI ∧ profiles.length < 2)
       ∨ (T = rs2_matchers.DI_C ∧ profiles.length < 3)
       ∨ (T = rs2_matchers.DLR ∧ profiles.length < 3)
       ∨ (T = rs2_matchers.DLR_C ∧ profiles.length < 4)) :
    create T profiles = create rs2_matchers.DEFAULT profiles
    ∧ create T profiles
        = some (matcher.timestamp_composite_matcher
            (profiles.map
              (fun p => matcher.identity_matcher p.get_unique_id p.get_stream_type))) := by
  rcases h with ⟨rfl, hl⟩ | ⟨rfl, hl⟩ | ⟨rfl, hl⟩ | ⟨rfl, hl⟩ <;>
    simp [create, hl, create_default_matcher_eq]

theorem create_below_minimum_eq_default_witness :
    ((rs2_matchers.DLR_C = rs2_matchers.DI ∧ [stream_interface.mk 10 0 1, ⟨11, 1, 2⟩, ⟨12, 2, 3⟩].length < 2)
       ∨ (rs2_matchers.DLR_C = rs2_matchers.DI_C ∧ [stream_interface.mk 10 0 1, ⟨11, 1, 2⟩, ⟨12, 2, 3⟩].length < 3)
       ∨ (rs2_matchers.DLR_C = rs2_matchers.DLR ∧ [stream_interface.mk 10 0 1, ⟨11, 1, 2⟩, ⟨12, 2, 3⟩].length < 3)
       ∨ (rs2_matchers.DLR_C = rs2_matchers.DLR_C ∧ [stream_interface.mk 10 0 1, ⟨11, 1, 2⟩, ⟨12, 2, 3⟩].length < 4))
    ∧ create rs2_matchers.DLR_C [stream_interface.mk 10 0 1, ⟨11, 1, 2⟩, ⟨12, 2, 3⟩]
        = create rs2_matchers.DEFAULT [stream_interface.mk 10 0 1, ⟨11, 1, 2⟩, ⟨12, 2, 3⟩]
    ∧ create rs2_matchers.DLR_C [stream_interface.mk 10 0 1, ⟨11, 1, 2⟩, ⟨12, 2, 3⟩]
        = some (matcher.timestamp_composite_matcher
            [matcher.identity_matcher 0 1, matcher.identity_matcher 1 2,
             matcher.identity_matcher 2 3]) :=
  ⟨by decide,
   create_below_minimum_eq_default rs2_matchers.DLR_C
     [stream_interface.mk 10 0 1, ⟨11, 1, 2⟩, ⟨12, 2, 3⟩] (by decide)⟩

/-- C2: for a profile list with at least three profiles, `create DI_C` returns
a timestamp composite with exactly two children: first a frame-number composite
over the identity matchers of `profiles[0]` and `profiles[1]`, then the identity
matcher of `profiles[2]`; each identity matcher carries its profile's unique id
and stream type. -/
theorem create_DI_C_shape (profiles : List stream_interface) (h : 3 ≤ profiles.length) :
    create rs2_matchers.DI_C profiles
      = some (matcher.timestamp_composite_matcher
          [ matcher.frame_number_composite_matcher
              [ matcher.identity_matcher profiles[0].get_unique_id profiles[0].get_stream_type,
                matcher.identity_matcher profiles[1].get_unique_id profiles[1].get_stream_type ],
            matcher.identity_matcher profiles[2].get_unique_id profiles[2].get_stream_type ]) := by
  match profiles, h with
  | p0 :: p1 :: p2 :: rest, _ =>
    simp [create, create_DI_C_matcher, create_DI_matcher, create_identity_matcher,
      create_timestamp_composite_matcher, push_identity_matchers]

theorem create_DI_C_shape_witness :
    3 ≤ [stream_interface.mk 100 0 1, ⟨101, 1, 2⟩, ⟨102, 2, 3⟩].length
    ∧ create rs2_matchers.DI_C [stream_interface.mk 100 0 1, ⟨101, 1, 2⟩, ⟨102, 2, 3⟩]
      = some (matcher.timestamp_composite_matcher
          [ matcher.frame_number_composite_matcher
              [ matcher.identity_matcher 0 1, matcher.identity_matcher 1 2 ],
            matcher.identity_matcher 2 3 ]) :=
  ⟨by decide,
   create_DI_C_shape [stream_interface.mk 100 0 1, ⟨101, 1, 2⟩, ⟨102, 2, 3⟩] (by decide)⟩

/-- C3: for a profile list with at least four profiles, `create DLR_C` returns
(so no index access left the list) a timestamp composite with exactly two
children: first a frame-number composite over the identity matchers of
`profiles[0]`, `profiles[1]` and `profiles[2]`, then the identity matcher of
`profiles[3]`. -/
theorem create_DLR_C_shape (profiles : List stream_interface) (h : 4 ≤ profiles.length) :
    create rs2_matchers.DLR_C profiles
      = some (matcher.timestamp_composite_matcher
          [ matcher.frame_number_composite_matcher
              [ matcher.identity_matcher profiles[0].get_unique_id profiles[0].get_stream_type,
                matcher.identity_matcher profiles[1].get_unique_id profiles[1].get_stream_type,
                matcher.identity_matcher profiles[2].get_unique_id profiles[2].get_stream_type ],
            matcher.identity_matcher profiles[3].get_unique_id profiles[3].get_stream_type ]) := by
  match profiles, h with
  | p0 :: p1 :: p2 :: p3 :: rest, _ =>
    simp [create, create_DLR_C_matcher, create_DLR_matcher, create_identity_matcher,
      create_timestamp_composite_matcher, push_identity_matchers]

theorem create_DLR_C_shape_witness :
    4 ≤ [stream_interface.mk 100 5 1, ⟨101, 6, 2⟩, ⟨102, 7, 2⟩, ⟨103, 8, 3⟩, ⟨104, 9, 4⟩].length
    ∧ create rs2_matchers.DLR_C
        [stream_interface.mk 100 5 1, ⟨101, 6, 2⟩, ⟨102, 7, 2⟩, ⟨103, 8, 3⟩, ⟨104, 9, 4⟩]
      = some (matcher.timestamp_composite_matcher
          [ matcher.frame_number_composite_matcher
              [ matcher.identity_matcher 5 1, matcher.identity_matcher 6 2,
                matcher.identity_matcher 7 2 ],
            matcher.identity_matcher 8 3 ]) :=
  ⟨by decide,
   create_DLR_C_shape
     [stream_interface.mk 100 5 1, ⟨101, 6, 2⟩, ⟨102, 7, 2⟩, ⟨103, 8, 3⟩, ⟨104, 9, 4⟩]
     (by decide)⟩

/-- C4: with at least two profiles `create DI`, and with at least three profiles
`create DLR`, returns a frame-number composite whose children are one identity
matcher per profile, in the order of the profile list, each carrying that
profile's unique id and stream type; the number of children is the number of
profiles. -/
theorem create_DI_DLR_shape (T : rs2_matchers) (profiles : List stream_interface)
    (h : (T = rs2_matchers.DI ∧ 2 ≤ profiles.length)
       ∨ (T = rs2_matchers.DLR ∧ 3 ≤ profiles.length)) :
    ∃ children : List matcher,
      create T profiles = some (matcher.frame_number_composite_matcher children)
      ∧ children = profiles.map
          (fun p => matcher.identity_matcher p.get_unique_id p.get_stream_type)
      ∧ children.length = profiles.length := by
  refine ⟨_, ?_, rfl, by simp⟩
  rcases h with ⟨rfl, hl⟩ | ⟨rfl, hl⟩
  · have : ¬ profiles.length < 2 := by omega
    simp [create, this, create_DI_matcher, push_identity_matchers_eq_map]
  · have : ¬ profiles.length < 3 := by omega
    simp [create, this, create_DLR_matcher, push_identity_matchers_eq_map]

theorem create_DI_DLR_shape_witness :
    ((rs2_matchers.DI = rs2_matchers.DI ∧ 2 ≤ [stream_interface.mk 7 0 1, ⟨8, 1, 2⟩].length)
       ∨ (rs2_matchers.DI = rs2_matchers.DLR ∧ 3 ≤ [stream_interface.mk 7 0 1, ⟨8, 1, 2⟩].length))
    ∧ ∃ children : List matcher,
      create rs2_matchers.DI [stream_interface.mk 7 0 1, ⟨8, 1, 2⟩]
        = some (matcher.frame_number_composite_matcher children)
      ∧ children = [stream_interface.mk 7 0 1, ⟨8, 1, 2⟩].map
          (fun p => matcher.identity_matcher p.get_unique_id p.get_stream_type)
      ∧ children.length = [stream_interface.mk 7 0 1, ⟨8, 1, 2⟩].length :=
  ⟨by decide,
   create_DI_DLR_shape rs2_matchers.DI [stream_interface.mk 7 0 1, ⟨8, 1, 2⟩] (by decide)⟩

/-- C5: for the DEFAULT tag and for every tag that is none of DI, DI_C, DLR,
DLR_C, and for every profile list, the empty one included, `create` returns
(it never fails) a timestamp composite whose children are one identity matcher
per profile, in the order of the profile list. -/
theorem create_default_shape (T : rs2_matchers) (profiles : List stream_interface)
    (hDI : T ≠ rs2_matchers.DI) (hDIC : T ≠ rs2_matchers.DI_C)
    (hDLR : T ≠ rs2_matchers.DLR) (hDLRC : T ≠ rs2_matchers.DLR_C) :
    create T profiles
      = some (matcher.timestamp_composite_matcher
          (profiles.map
            (fun p => matcher.identity_matcher p.get_unique_id p.get_stream_type))) := by
  cases T <;> simp_all [create, create_default_matcher_eq]

theorem create_default_shape_witness :
    (rs2_matchers.other 9 ≠ rs2_matchers.DI ∧ rs2_matchers.other 9 ≠ rs2_matchers.DI_C
      ∧ rs2_matchers.other 9 ≠ rs2_matchers.DLR ∧ rs2_matchers.other 9 ≠ rs2_matchers.DLR_C)
    ∧ create (rs2_matchers.other 9) []
        = some (matcher.timestamp_composite_matcher
            (([] : List stream_interface).map
              (fun p => matcher.identity_matcher p.get_unique_id p.get_stream_type))) :=
  ⟨by decide,
   create_default_shape (rs2_matchers.other 9) [] (by decide) (by decide) (by decide)
     (by decide)⟩

end matcher_factory

/-! ## Device: lemmas on the registry map -/

theorem map_at_map_assign_self (m : extrinsics_map) (k : Int) (v : extrinsics_entry) :
    map_at (map_assign m k v) k = some v := by
  induction m with
  | nil => simp [map_assign, map_at]
  | cons hd tl ih =>
    obtain ⟨k', v'⟩ := hd
    unfold map_assign
    by_cases h1 : k < k'
    · simp [h1, map_at]
    · by_cases h2 : k = k'
      · simp [h2, map_at]
      · have h3 : ¬ k' = k := fun h => h2 h.symm
        simp only [h1, h2, if_false]
        simp only [map_at] at ih ⊢
        rw [List.find?_cons_of_neg]
        · exact ih
        · simpa using h3

theorem map_at_map_assign_of_ne (m : extrinsics_map) (k k0 : Int) (v : extrinsics_entry)
    (hne : k0 ≠ k) : map_at (map_assign m k v) k0 = map_at m k0 := by
  have hne' : ¬ k = k0 := fun h => hne h.symm
  induction m with
  | nil => simp [map_assign, map_at, hne']
  | cons hd tl ih =>
    obtain ⟨k', v'⟩ := hd
    unfold map_assign
    by_cases h1 : k < k'
    · simp [h1, map_at, hne']
    · by_cases h2 : k = k'
      · subst h2
        simp [map_at, hne']
      · simp only [h1, h2, if_false]
        simp only [map_at] at ih ⊢
        by_cases h4 : k' = k0
        · simp [h4]
        · rw [List.find?_cons_of_neg, List.find?_cons_of_neg]
          · exact ih
          · simpa using h4
          · simpa using h4

theorem mem_map_assign (m : extrinsics_map) (k : Int) (v : extrinsics_entry)
    (e : Int × extrinsics_entry) (he : e ∈ map_assign m k v) : e = (k, v) ∨ e ∈ m := by
  induction m with
  | nil => simpa [map_assign] using he
  | cons hd tl ih =>
    obtain ⟨k', v'⟩ := hd
    unfold map_assign at he
    by_cases h1 : k < k'
    · simp only [h1, if_true, List.mem_cons] at he
      rcases he with he | he | he
      · exact Or.inl he
      · exact Or.inr (by simp [he])
      · exact Or.inr (by simp [he])
    · by_cases h2 : k = k'
      · subst h2
        simp only [lt_irrefl, if_true, if_false, List.mem_cons] at he
        rcases he with he | he
        · exact Or.inl he
        · exact Or.inr (by simp [he])
      · simp only [h1, h2, if_false, List.mem_cons] at he
        rcases he with he | he
        · exact Or.inr (by simp [he])
        · rcases ih he with h | h
          · exact Or.inl h
          · exact Or.inr (by simp [h])

theorem mem_map_assign_self (m : extrinsics_map) (k : Int) (v : extrinsics_entry) :
    (k, v) ∈ map_assign m k v := by
  induction m with
  | nil => simp [map_assign]
  | cons hd tl ih =>
    obtain ⟨k', v'⟩ := hd
    unfold map_assign
    by_cases h1 : k < k'
    · simp [h1]
    · by_cases h2 : k = k'
      · simp [h2]
      · simp only [h1, h2, if_false, List.mem_cons]
        exact Or.inr ih

/-- The representation invariant of `std::map` (keys strictly ascending, hence
no key twice) is kept by `m[k] = v`. -/
theorem map_assign_keys_ascending (m : extrinsics_map) (k : Int) (v : extrinsics_entry)
    (h : m.Pairwise (fun a b => a.1 < b.1)) :
    (map_assign m k v).Pairwise (fun a b => a.1 < b.1) := by
  induction m with
  | nil => simp [map_assign]
  | cons hd tl ih =>
    obtain ⟨k', v'⟩ := hd
    obtain ⟨hhd, htl⟩ := List.pairwise_cons.mp h
    unfold map_assign
    by_cases h1 : k < k'
    · simp only [h1, if_true]
      refine List.pairwise_cons.mpr ⟨?_, h⟩
      intro e he
      rcases List.mem_cons.mp he with he | he
      · rw [he]; exact h1
      · exact lt_trans h1 (hhd e he)
    · by_cases h2 : k = k'
      · subst h2
        simp only [lt_irrefl, if_true, if_false]
        exact List.pairwise_cons.mpr ⟨hhd, htl⟩
      · simp only [h1, h2, if_false]
        refine List.pairwise_cons.mpr ⟨?_, ih htl⟩
        intro e he
        rcases mem_map_assign _ _ _ _ he with he | he
        · rw [he]
          show k' < k
          omega
        · exact hhd e he

theorem mem_of_map_at (m : extrinsics_map) (k : Int) (v : extrinsics_entry)
    (h : map_at m k = some v) : (k, v) ∈ m := by
  unfold map_at at h
  cases hf : m.find? (fun p => p.1 == k) with
  | none => simp [hf] at h
  | some e =>
    rw [hf] at h
    have hk : e.1 = k := by simpa using List.find?_some hf
    have hv : e.2 = v := by simpa using h
    have hm : e ∈ m := List.mem_of_find?_eq_some hf
    have : e = (k, v) := by rw [← hk, ← hv]
    rw [← this]
    exact hm

/-! ## Device: hot-plug validity -/

section
variable {Group : Type} [DecidableEq Group] {Extr : Type}

theorem scan_removed_is_valid_iff (d : device Group) (l : List (rs2_device_info Group)) :
    (scan_removed d l)._is_valid = true
      ↔ d._is_valid = true ∧ ∀ e ∈ l, e.get_device_data ≠ d._group := by
  induction l with
  | nil => simp [scan_removed]
  | cons hd tl ih =>
    unfold scan_removed
    by_cases h : hd.get_device_data = d._group
    · simp [h]
    · simp [h, ih]

/-- C10: a device constructed with change notifications enabled starts valid;
after one change notification its validity flag is false exactly when the
removed list holds an entry whose device data equals the device's own group,
and true exactly when the removed list holds no such entry, whatever the added
list is. -/
theorem removal_notification_clears_validity (group : Group)
    (removed added : rs2_device_list Group) :
    (device.construct group true)._is_valid = true
    ∧ ((deliver_notification (device.construct group true) removed added)._is_valid = false
        ↔ ∃ e ∈ removed.list, e.get_device_data = group)
    ∧ ((deliver_notification (device.construct group true) removed added)._is_valid = true
        ↔ ∀ e ∈ removed.list, e.get_device_data ≠ group) := by
  have hv : (deliver_notification (device.construct group true) removed added)._is_valid = true
      ↔ ∀ e ∈ removed.list, e.get_device_data ≠ group := by
    simp [deliver_notification, devices_changed_callback, scan_removed_is_valid_iff,
      device.construct]
  refine ⟨rfl, ?_, hv⟩
  rw [← Bool.not_eq_true, hv]
  push_neg
  rfl

end

/-! ## Device: extrinsics-group registry -/

section
variable {Group : Type} {Extr : Type}

theorem register_of_not_found (d : device Group) (stream : stream_interface) (g : Nat)
    (h : d._extrinsics.find? (fun p => p.2.1 == g) = none) :
    (register_stream_to_extrinsic_group d stream g)._extrinsics
      = map_assign d._extrinsics stream.get_unique_id (g, stream) := by
  simp [register_stream_to_extrinsic_group, h]

theorem register_of_found (d : device Group) (stream : stream_interface) (g : Nat)
    (it : Int × extrinsics_entry)
    (h : d._extrinsics.find? (fun p => p.2.1 == g) = some it) :
    (register_stream_to_extrinsic_group d stream g)._extrinsics
      = map_assign d._extrinsics stream.get_unique_id it.2 := by
  simp [register_stream_to_extrinsic_group, h]

theorem register_all_cons (d : device Group) (c : stream_interface × Nat)
    (cs : List (stream_interface × Nat)) :
    register_all d (c :: cs)
      = register_all (register_stream_to_extrinsic_group d c.1 c.2) cs := by
  simp [register_all]

theorem get_extrinsics_of_entry
    (try_fetch_extrinsics : stream_interface → stream_interface → Bool × Extr)
    (d : device Group) (stream : stream_interface) (g : Nat) (r : stream_interface)
    (h : map_at d._extrinsics stream.get_unique_id = some (g, r)) :
    get_extrinsics try_fetch_extrinsics d stream
      = if (try_fetch_extrinsics r stream).1 = false then
          { result := .error
              (exception.failed_to_fetch_extrinsics r.get_unique_id stream.get_unique_id)
            graph_queries := [(r, stream)]
            device_after := d }
        else
          { result := .ok (g, (try_fetch_extrinsics r stream).2)
            graph_queries := [(r, stream)]
            device_after := d } := by
  simp [get_extrinsics, h]

/-- C9: for a stream whose unique id has a registry entry `(g, r)`,
`get_extrinsics` fails with the failed-to-fetch runtime error exactly when the
calibration graph reports failure for `(r, stream)`, and returns
`(g, transform of the graph for (r, stream))` exactly when the graph reports
success; in both cases the device, and so its registry, is left as it was. -/
theorem get_extrinsics_registered
    (try_fetch_extrinsics : stream_interface → stream_interface → Bool × Extr)
    (d : device Group) (stream : stream_interface) (g : Nat) (r : stream_interface)
    (h : map_at d._extrinsics stream.get_unique_id = some (g, r)) :
    ((get_extrinsics try_fetch_extrinsics d stream).result
        = .error (exception.failed_to_fetch_extrinsics r.get_unique_id stream.get_unique_id)
      ↔ (try_fetch_extrinsics r stream).1 = false)
    ∧ ((∃ e, (get_extrinsics try_fetch_extrinsics d stream).result = .error e)
      ↔ (try_fetch_extrinsics r stream).1 = false)
    ∧ ((get_extrinsics try_fetch_extrinsics d stream).result
        = .ok (g, (try_fetch_extrinsics r stream).2)
      ↔ (try_fetch_extrinsics r stream).1 = true)
    ∧ (get_extrinsics try_fetch_extrinsics d stream).device_after = d
    ∧ (get_extrinsics try_fetch_extrinsics d stream).device_after._extrinsics
        = d._extrinsics := by
  rw [get_extrinsics_of_entry try_fetch_extrinsics d stream g r h]
  cases hf : (try_fetch_extrinsics r stream).1 <;> simp

theorem get_extrinsics_registered_witness :
    map_at (register_all (device.construct (0 : Nat) false)
        [(stream_interface.mk 100 1 1, 5), (stream_interface.mk 101 2 2, 5)])._extrinsics
        (stream_interface.mk 101 2 2).get_unique_id = some (5, stream_interface.mk 100 1 1)
    ∧ (get_extrinsics (fun a b => (decide (a.addr < b.addr), (7 : Nat)))
        (register_all (device.construct (0 : Nat) false)
          [(stream_interface.mk 100 1 1, 5), (stream_interface.mk 101 2 2, 5)])
        (stream_interface.mk 101 2 2)).result = .ok (5, 7) :=
  ⟨by decide,
   ((get_extrinsics_registered (fun a b => (decide (a.addr < b.addr), (7 : Nat)))
      (register_all (device.construct (0 : Nat) false)
        [(stream_interface.mk 100 1 1, 5), (stream_interface.mk 101 2 2, 5)])
      (stream_interface.mk 101 2 2) 5 (stream_interface.mk 100 1 1) (by decide)).2.2.1).mpr
    (by decide)⟩

/-- One registration keeps the property that entries of equal group index have
equal representatives. -/
theorem register_keeps_one_representative (d : device Group) (stream : stream_interface)
    (g : Nat)
    (hinv : ∀ e1 ∈ d._extrinsics, ∀ e2 ∈ d._extrinsics, e1.2.1 = e2.2.1 → e1.2.2 = e2.2.2) :
    ∀ e1 ∈ (register_stream_to_extrinsic_group d stream g)._extrinsics,
    ∀ e2 ∈ (register_stream_to_extrinsic_group d stream g)._extrinsics,
      e1.2.1 = e2.2.1 → e1.2.2 = e2.2.2 := by
  cases hf : d._extrinsics.find? (fun p => p.2.1 == g) with
  | none =>
    rw [register_of_not_found d stream g hf]
    have hno : ∀ e ∈ d._extrinsics, e.2.1 ≠ g := by
      intro e he
      have := List.find?_eq_none.mp hf e he
      simpa using this
    intro e1 h1 e2 h2 hg
    rcases mem_map_assign _ _ _ _ h1 with h1 | h1 <;>
      rcases mem_map_assign _ _ _ _ h2 with h2 | h2
    · rw [h1, h2]
    · subst h1
      exact absurd hg.symm (hno e2 h2)
    · subst h2
      exact absurd hg (hno e1 h1)
    · exact hinv e1 h1 e2 h2 hg
  | some it =>
    rw [register_of_found d stream g it hf]
    have hit : it ∈ d._extrinsics := List.mem_of_find?_eq_some hf
    intro e1 h1 e2 h2 hg
    rcases mem_map_assign _ _ _ _ h1 with h1 | h1 <;>
      rcases mem_map_assign _ _ _ _ h2 with h2 | h2
    · rw [h1, h2]
    · subst h1
      exact hinv it hit e2 h2 hg
    · subst h2
      exact hinv e1 h1 it hit hg
    · exact hinv e1 h1 e2 h2 hg

theorem register_all_keeps_one_representative (calls : List (stream_interface × Nat)) :
    ∀ d : device Group,
      (∀ e1 ∈ d._extrinsics, ∀ e2 ∈ d._extrinsics, e1.2.1 = e2.2.1 → e1.2.2 = e2.2.2) →
      ∀ e1 ∈ (register_all d calls)._extrinsics, ∀ e2 ∈ (register_all d calls)._extrinsics,
        e1.2.1 = e2.2.1 → e1.2.2 = e2.2.2 := by
  induction calls with
  | nil => intro d hinv; simpa [register_all] using hinv
  | cons c cs ih =>
    intro d hinv
    rw [register_all_cons]
    exact ih _ (register_keeps_one_representative d c.1 c.2 hinv)

/-- C7: in the registry reached from an empty registry by any sequence of
`register_stream_to_extrinsic_group` calls (any streams, any group indices,
repeats included), two entries with the same group index have the same
representative stream. -/
theorem registry_group_has_one_representative (d : device Group)
    (calls : List (stream_interface × Nat)) (hempty : d._extrinsics = [])
    (e1 e2 : Int × extrinsics_entry)
    (h1 : e1 ∈ (register_all d calls)._extrinsics)
    (h2 : e2 ∈ (register_all d calls)._extrinsics)
    (hg : e1.2.1 = e2.2.1) : e1.2.2 = e2.2.2 :=
  register_all_keeps_one_representative calls d (by simp [hempty]) e1 h1 e2 h2 hg

theorem registry_group_has_one_representative_witness :
    (device.construct (0 : Nat) false)._extrinsics = []
    ∧ ((2 : Int), ((5 : Nat), stream_interface.mk 100 1 1))
        ∈ (register_all (device.construct (0 : Nat) false)
            [(stream_interface.mk 100 1 1, 5), (stream_interface.mk 101 2 2, 5),
             (stream_interface.mk 100 1 1, 6), (stream_interface.mk 102 3 3, 5)])._extrinsics
    ∧ ((3 : Int), ((5 : Nat), stream_interface.mk 100 1 1))
        ∈ (register_all (device.construct (0 : Nat) false)
            [(stream_interface.mk 100 1 1, 5), (stream_interface.mk 101 2 2, 5),
             (stream_interface.mk 100 1 1, 6), (stream_interface.mk 102 3 3, 5)])._extrinsics
    ∧ ((2 : Int), ((5 : Nat), stream_interface.mk 100 1 1)).2.2
        = ((3 : Int), ((5 : Nat), stream_interface.mk 100 1 1)).2.2 :=
  ⟨rfl, by decide, by decide,
   registry_group_has_one_representative (device.construct (0 : Nat) false)
     [(stream_interface.mk 100 1 1, 5), (stream_interface.mk 101 2 2, 5),
      (stream_interface.mk 100 1 1, 6), (stream_interface.mk 102 3 3, 5)] rfl
     ((2 : Int), ((5 : Nat), stream_interface.mk 100 1 1))
     ((3 : Int), ((5 : Nat), stream_interface.mk 100 1 1)) (by decide) (by decide) rfl⟩

/-- One more registration to group `G`, in a registry where `G` has an entry and
every entry of `G` is pinned to `s1`: the registrant gets the entry `(G, s1)`,
the property is kept, and so is every entry `(G, s1)` already there. -/
theorem register_into_pinned_group (d : device Group) (G : Nat) (s1 s : stream_interface)
    (hex : ∃ e ∈ d._extrinsics, e.2.1 = G)
    (hall : ∀ e ∈ d._extrinsics, e.2.1 = G → e.2.2 = s1) :
    (∃ e ∈ (register_stream_to_extrinsic_group d s G)._extrinsics, e.2.1 = G)
    ∧ (∀ e ∈ (register_stream_to_extrinsic_group d s G)._extrinsics, e.2.1 = G → e.2.2 = s1)
    ∧ map_at (register_stream_to_extrinsic_group d s G)._extrinsics s.get_unique_id
        = some (G, s1)
    ∧ (∀ k, map_at d._extrinsics k = some (G, s1) →
        map_at (register_stream_to_extrinsic_group d s G)._extrinsics k = some (G, s1)) := by
  cases hf : d._extrinsics.find? (fun p => p.2.1 == G) with
  | none =>
    obtain ⟨e, he, hg⟩ := hex
    have := List.find?_eq_none.mp hf e he
    simp [hg] at this
  | some it =>
    have hit : it ∈ d._extrinsics := List.mem_of_find?_eq_some hf
    have hitg : it.2.1 = G := by simpa using List.find?_some hf
    have hit2 : it.2 = (G, s1) := by
      rw [← hitg, ← hall it hit hitg]
    rw [register_of_found d s G it hf, hit2]
    refine ⟨⟨_, mem_map_assign_self _ _ _, rfl⟩, ?_, map_at_map_assign_self _ _ _, ?_⟩
    · intro e he hg
      rcases mem_map_assign _ _ _ _ he with h | h
      · rw [h]
      · exact hall e h hg
    · intro k hk
      by_cases hks : k = s.get_unique_id
      · rw [hks]
        exact map_at_map_assign_self _ _ _
      · rw [map_at_map_assign_of_ne _ _ _ _ hks]
        exact hk

theorem register_rest_into_pinned_group (G : Nat) (s1 : stream_interface)
    (rest : List stream_interface) :
    ∀ d : device Group,
      (∃ e ∈ d._extrinsics, e.2.1 = G) →
      (∀ e ∈ d._extrinsics, e.2.1 = G → e.2.2 = s1) →
      (∀ k, map_at d._extrinsics k = some (G, s1) →
        map_at (register_all d (rest.map (fun s => (s, G))))._extrinsics k = some (G, s1))
      ∧ (∀ s ∈ rest,
        map_at (register_all d (rest.map (fun s => (s, G))))._extrinsics s.get_unique_id
          = some (G, s1)) := by
  induction rest with
  | nil =>
    intro d _ _
    simp [register_all]
  | cons s ss ih =>
    intro d hex hall
    obtain ⟨hex1, hall1, hself, hkeep⟩ := register_into_pinned_group d G s1 s hex hall
    obtain ⟨ihkeep, ihmem⟩ := ih (register_stream_to_extrinsic_group d s G) hex1 hall1
    rw [List.map_cons, register_all_cons]
    refine ⟨fun k hk => ihkeep k (hkeep k hk), ?_⟩
    intro t ht
    rcases List.mem_cons.mp ht with h | h
    · rw [h]
      exact ihkeep _ hself
    · exact ihmem t h

/-- C6: starting from a registry with no entry of group `G`, after
`register_stream_to_extrinsic_group` is called with group `G` for `s1` and then
for each stream of `rest`, in that order, every one of these streams has the
entry `(G, s1)`; `get_extrinsics` of any of them, `sk`, asks the calibration
graph exactly once, for `(s1, sk)`, and when the graph reports success the
result is `(G, transform of the graph)`. -/
theorem group_resolves_via_first_registrant
    (try_fetch_extrinsics : stream_interface → stream_interface → Bool × Extr)
    (d : device Group) (G : Nat) (s1 : stream_interface) (rest : List stream_interface)
    (hfresh : ∀ e ∈ d._extrinsics, e.2.1 ≠ G)
    (sk : stream_interface) (hk : sk ∈ s1 :: rest) :
    map_at (register_all d ((s1 :: rest).map (fun s => (s, G))))._extrinsics sk.get_unique_id
      = some (G, s1)
    ∧ (get_extrinsics try_fetch_extrinsics
        (register_all d ((s1 :: rest).map (fun s => (s, G)))) sk).graph_queries = [(s1, sk)]
    ∧ ((try_fetch_extrinsics s1 sk).1 = true →
        (get_extrinsics try_fetch_extrinsics
          (register_all d ((s1 :: rest).map (fun s => (s, G)))) sk).result
          = .ok (G, (try_fetch_extrinsics s1 sk).2)) := by
  have hnone : d._extrinsics.find? (fun p => p.2.1 == G) = none := by
    rw [List.find?_eq_none]
    intro e he
    simpa using hfresh e he
  have hfirst := register_of_not_found d s1 G hnone
  have hex : ∃ e ∈ (register_stream_to_extrinsic_group d s1 G)._extrinsics, e.2.1 = G := by
    rw [hfirst]
    exact ⟨_, mem_map_assign_self _ _ _, rfl⟩
  have hall : ∀ e ∈ (register_stream_to_extrinsic_group d s1 G)._extrinsics,
      e.2.1 = G → e.2.2 = s1 := by
    rw [hfirst]
    intro e he hg
    rcases mem_map_assign _ _ _ _ he with h | h
    · rw [h]
    · exact absurd hg (hfresh e h)
  have hself : map_at (register_stream_to_extrinsic_group d s1 G)._extrinsics
      s1.get_unique_id = some (G, s1) := by
    rw [hfirst]
    exact map_at_map_assign_self _ _ _
  obtain ⟨hkeep, hmem⟩ :=
    register_rest_into_pinned_group G s1 rest (register_stream_to_extrinsic_group d s1 G)
      hex hall
  have hentry : map_at (register_all d ((s1 :: rest).map (fun s => (s, G))))._extrinsics
      sk.get_unique_id = some (G, s1) := by
    rw [List.map_cons, register_all_cons]
    rcases List.mem_cons.mp hk with h | h
    · rw [h]
      exact hkeep _ hself
    · exact hmem sk h
  refine ⟨hentry, ?_, ?_⟩
  · rw [get_extrinsics_of_entry try_fetch_extrinsics _ sk G s1 hentry]
    split <;> rfl
  · intro hok
    rw [get_extrinsics_of_entry try_fetch_extrinsics _ sk G s1 hentry]
    simp [hok]

theorem group_resolves_via_first_registrant_witness :
    (∀ e ∈ (device.construct (0 : Nat) false)._extrinsics, e.2.1 ≠ 5)
    ∧ stream_interface.mk 102 3 3
        ∈ [stream_interface.mk 100 1 1, stream_interface.mk 101 2 2, stream_interface.mk 102 3 3]
    ∧ map_at (register_all (device.construct (0 : Nat) false)
          ([stream_interface.mk 100 1 1, stream_interface.mk 101 2 2,
            stream_interface.mk 102 3 3].map (fun s => (s, 5))))._extrinsics
          (stream_interface.mk 102 3 3).get_unique_id
        = some (5, stream_interface.mk 100 1 1)
    ∧ (get_extrinsics (fun a b => (decide (a.addr < b.addr), b.addr - a.addr))
        (register_all (device.construct (0 : Nat) false)
          ([stream_interface.mk 100 1 1, stream_interface.mk 101 2 2,
            stream_interface.mk 102 3 3].map (fun s => (s, 5))))
        (stream_interface.mk 102 3 3)).graph_queries
        = [(stream_interface.mk 100 1 1, stream_interface.mk 102 3 3)]
    ∧ (get_extrinsics (fun a b => (decide (a.addr < b.addr), b.addr - a.addr))
        (register_all (device.construct (0 : Nat) false)
          ([stream_interface.mk 100 1 1, stream_interface.mk 101 2 2,
            stream_interface.mk 102 3 3].map (fun s => (s, 5))))
        (stream_interface.mk 102 3 3)).result = .ok (5, 2) :=
  have h := group_resolves_via_first_registrant
    (fun a b => (decide (a.addr < b.addr), b.addr - a.addr))
    (device.construct (0 : Nat) false) 5 (stream_interface.mk 100 1 1)
    [stream_interface.mk 101 2 2, stream_interface.mk 102 3 3]
    (by simp [device.construct]) (stream_interface.mk 102 3 3) (by decide)
  ⟨by simp [device.construct], by decide, h.1, h.2.1, h.2.2 (by decide)⟩

/-- One registration `(s, g)` after the calls `P`, none of which registered the
unique id of `s` to a group other than `g`: if every entry's representative is
the first stream of `P` registered to the entry's group, and every stream of
`P` still has an entry of the group it was registered to, then the same holds
for `P` followed by `(s, g)`. -/
theorem register_keeps_first_registrant (d : device Group)
    (P : List (stream_interface × Nat)) (s : stream_interface) (g : Nat)
    (hsame : ∀ c ∈ P, c.1.get_unique_id = s.get_unique_id → c.2 = g)
    (h1 : ∀ e ∈ d._extrinsics,
      (P.find? (fun c => c.2 == e.2.1)).map Prod.fst = some e.2.2)
    (h2 : ∀ c ∈ P, ∃ r, map_at d._extrinsics c.1.get_unique_id = some (c.2, r)) :
    (∀ e ∈ (register_stream_to_extrinsic_group d s g)._extrinsics,
      ((P ++ [(s, g)]).find? (fun c => c.2 == e.2.1)).map Prod.fst = some e.2.2)
    ∧ (∀ c ∈ P ++ [(s, g)], ∃ r,
        map_at (register_stream_to_extrinsic_group d s g)._extrinsics c.1.get_unique_id
          = some (c.2, r)) := by
  have hold : ∀ e ∈ d._extrinsics,
      ((P ++ [(s, g)]).find? (fun c => c.2 == e.2.1)).map Prod.fst = some e.2.2 := by
    intro e he
    have h := h1 e he
    cases hf : P.find? (fun c => c.2 == e.2.1) with
    | none => simp [hf] at h
    | some x =>
      rw [hf] at h
      rw [List.find?_append, hf]
      exact h
  cases hf : d._extrinsics.find? (fun p => p.2.1 == g) with
  | none =>
    rw [register_of_not_found d s g hf]
    have hno : ∀ e ∈ d._extrinsics, e.2.1 ≠ g := by
      intro e he
      simpa using List.find?_eq_none.mp hf e he
    have hP : P.find? (fun c => c.2 == g) = none := by
      rw [List.find?_eq_none]
      intro c hc
      obtain ⟨r, hr⟩ := h2 c hc
      have := hno _ (mem_of_map_at _ _ _ hr)
      simpa using this
    constructor
    · intro e he
      rcases mem_map_assign _ _ _ _ he with h | h
      · subst h
        simp [List.find?_append, hP]
      · exact hold e h
    · intro c hc
      rcases List.mem_append.mp hc with h | h
      · by_cases hid : c.1.get_unique_id = s.get_unique_id
        · refine ⟨s, ?_⟩
          rw [hid, hsame c h hid]
          exact map_at_map_assign_self _ _ _
        · rw [map_at_map_assign_of_ne _ _ _ _ hid]
          exact h2 c h
      · have hc' : c = (s, g) := by simpa using h
        subst hc'
        exact ⟨s, map_at_map_assign_self _ _ _⟩
  | some it =>
    rw [register_of_found d s g it hf]
    have hit : it ∈ d._extrinsics := List.mem_of_find?_eq_some hf
    have hitg : it.2.1 = g := by simpa using List.find?_some hf
    constructor
    · intro e he
      rcases mem_map_assign _ _ _ _ he with h | h
      · subst h
        exact hold it hit
      · exact hold e h
    · intro c hc
      rcases List.mem_append.mp hc with h | h
      · by_cases hid : c.1.get_unique_id = s.get_unique_id
        · refine ⟨it.2.2, ?_⟩
          rw [hid, hsame c h hid, ← hitg]
          exact map_at_map_assign_self _ _ _
        · rw [map_at_map_assign_of_ne _ _ _ _ hid]
          exact h2 c h
      · have hc' : c = (s, g) := by simpa using h
        subst hc'
        refine ⟨it.2.2, ?_⟩
        show map_at _ s.get_unique_id = some (g, it.2.2)
        rw [← hitg]
        exact map_at_map_assign_self _ _ _

theorem register_all_keeps_first_registrant (cs : List (stream_interface × Nat)) :
    ∀ (P : List (stream_interface × Nat)) (d : device Group),
      (∀ c1 ∈ P ++ cs, ∀ c2 ∈ P ++ cs,
        c1.1.get_unique_id = c2.1.get_unique_id → c1.2 = c2.2) →
      (∀ e ∈ d._extrinsics,
        (P.find? (fun c => c.2 == e.2.1)).map Prod.fst = some e.2.2) →
      (∀ c ∈ P, ∃ r, map_at d._extrinsics c.1.get_unique_id = some (c.2, r)) →
      ∀ e ∈ (register_all d cs)._extrinsics,
        ((P ++ cs).find? (fun c => c.2 == e.2.1)).map Prod.fst = some e.2.2 := by
  induction cs with
  | nil =>
    intro P d _ h1 _
    simpa [register_all] using h1
  | cons c cs ih =>
    intro P d hsame h1 h2
    have hstep := register_keeps_first_registrant d P c.1 c.2
      (fun c0 hc0 hid => hsame c0 (by simp [hc0]) c (by simp) hid) h1 h2
    have hassoc : P ++ c :: cs = (P ++ [(c.1, c.2)]) ++ cs := by simp
    rw [register_all_cons, hassoc]
    refine ih (P ++ [(c.1, c.2)]) _ ?_ hstep.1 hstep.2
    rw [← hassoc]
    exact hsame

/-- C8, as the code has it: after a sequence of
`register_stream_to_extrinsic_group` calls from an empty registry in which no
unique id is registered to two different group indices, the representative in
every entry is the first stream of the sequence that was registered to that
entry's group index. -/
theorem first_registrant_is_representative (d : device Group)
    (calls : List (stream_interface × Nat)) (hempty : d._extrinsics = [])
    (hsame : ∀ c1 ∈ calls, ∀ c2 ∈ calls,
      c1.1.get_unique_id = c2.1.get_unique_id → c1.2 = c2.2)
    (e : Int × extrinsics_entry) (he : e ∈ (register_all d calls)._extrinsics) :
    (calls.find? (fun c => c.2 == e.2.1)).map Prod.fst = some e.2.2 := by
  have h := register_all_keeps_first_registrant calls [] d (by simpa using hsame)
    (by simp [hempty]) (by simp) e he
  simpa using h

theorem first_registrant_is_representative_witness :
    (device.construct (0 : Nat) false)._extrinsics = []
    ∧ (∀ c1 ∈ [(stream_interface.mk 102 3 3, 5), (stream_interface.mk 100 1 1, 5),
                (stream_interface.mk 102 3 3, 5), (stream_interface.mk 101 2 2, 6)],
        ∀ c2 ∈ [(stream_interface.mk 102 3 3, 5), (stream_interface.mk 100 1 1, 5),
                (stream_interface.mk 102 3 3, 5), (stream_interface.mk 101 2 2, 6)],
        c1.1.get_unique_id = c2.1.get_unique_id → c1.2 = c2.2)
    ∧ ((1 : Int), ((5 : Nat), stream_interface.mk 102 3 3))
        ∈ (register_all (device.construct (0 : Nat) false)
            [(stream_interface.mk 102 3 3, 5), (stream_interface.mk 100 1 1, 5),
             (stream_interface.mk 102 3 3, 5), (stream_interface.mk 101 2 2, 6)])._extrinsics
    ∧ ([(stream_interface.mk 102 3 3, 5), (stream_interface.mk 100 1 1, 5),
        (stream_interface.mk 102 3 3, 5), (stream_interface.mk 101 2 2, 6)].find?
          (fun c => c.2 == 5)).map Prod.fst = some (stream_interface.mk 102 3 3) :=
  ⟨rfl, by decide, by decide,
   first_registrant_is_representative (device.construct (0 : Nat) false)
     [(stream_interface.mk 102 3 3, 5), (stream_interface.mk 100 1 1, 5),
      (stream_interface.mk 102 3 3, 5), (stream_interface.mk 101 2 2, 6)] rfl (by decide)
     ((1 : Int), ((5 : Nat), stream_interface.mk 102 3 3)) (by decide)⟩

/-- C8, as stated, fails: stream 1 is registered to group 5 and then to group 6,
after which stream 2 is registered to group 5. The registry then holds
`1 ↦ (6, stream 1)` and `2 ↦ (5, stream 2)`: the entry of group 5 names stream 2
as representative, while the first stream registered to group 5 was stream 1. -/
theorem later_registrant_becomes_representative :
    (register_all (device.construct (0 : Nat) false)
        [(stream_interface.mk 100 1 1, 5), (stream_interface.mk 100 1 1, 6),
         (stream_interface.mk 101 2 2, 5)])._extrinsics
      = [(1, (6, stream_interface.mk 100 1 1)), (2, (5, stream_interface.mk 101 2 2))]
    ∧ ([(stream_interface.mk 100 1 1, 5), (stream_interface.mk 100 1 1, 6),
        (stream_interface.mk 101 2 2, 5)].find? (fun c => c.2 == 5)).map Prod.fst
      = some (stream_interface.mk 100 1 1)
    ∧ ¬ (∀ e ∈ (register_all (device.construct (0 : Nat) false)
            [(stream_interface.mk 100 1 1, 5), (stream_interface.mk 100 1 1, 6),
             (stream_interface.mk 101 2 2, 5)])._extrinsics,
          ([(stream_interface.mk 100 1 1, 5), (stream_interface.mk 100 1 1, 6),
            (stream_interface.mk 101 2 2, 5)].find? (fun c => c.2 == e.2.1)).map Prod.fst
            = some e.2.2) := by
  refine ⟨by decide, by decide, ?_⟩
  intro h
  exact absurd (h ((2 : Int), ((5 : Nat), stream_interface.mk 101 2 2)) (by decide))
    (by decide)

end

/-! ## Device: sensor sequence -/

theorem to_int_of_range (x : Int) (h0 : -(2 ^ 31) ≤ x) (h1 : x < 2 ^ 31) : to_int x = x := by
  unfold to_int
  norm_num at h0 h1 ⊢
  omega

theorem to_unsigned_int_of_range (n : Nat) (h : n < 2 ^ 32) : to_unsigned_int n = n := by
  unfold to_unsigned_int
  exact Nat.mod_eq_of_lt h

theorem to_uint8_t_of_range (n : Nat) (h : n < 2 ^ 8) : to_uint8_t n = n := by
  unfold to_uint8_t
  exact Nat.mod_eq_of_lt h

theorem to_size_t_of_nat (n : Nat) (h : n < 2 ^ 64) : to_size_t (n : Int) = n := by
  unfold to_size_t
  norm_num at h ⊢
  omega

section
variable {Group : Type}

theorem get_sensor_of_lt (d : device Group) (i : Nat) (h : i < d._sensors.length) :
    get_sensor d i = { result := .ok d._sensors[i], device_after := d } := by
  simp [get_sensor, vector_at, List.getElem?_eq_getElem h]

theorem get_sensor_of_ge (d : device Group) (i : Nat) (h : d._sensors.length ≤ i) :
    get_sensor d i
      = { result := .error exception.invalid_subdevice_value, device_after := d } := by
  simp [get_sensor, vector_at, List.getElem?_eq_none h]

/-- C11: for a sensor sequence whose length `unsigned int` holds and every index
`i`, the two forms of `get_sensor` agree; `get_sensor(i)` fails, and then with
the invalid-subdevice error, exactly when `i >= get_sensors_count()`; when
`i < get_sensors_count()` it returns the sensor in slot `i`; the device, and so
the sequence, is left as it was. -/
theorem get_sensor_in_and_out_of_bounds (d : device Group) (i : Nat)
    (hlen : d._sensors.length < 2 ^ 32) :
    get_sensor_const d i = get_sensor d i
    ∧ ((get_sensor d i).result = .error exception.invalid_subdevice_value
        ↔ get_sensors_count d ≤ i)
    ∧ ((∃ e, (get_sensor d i).result = .error e) ↔ get_sensors_count d ≤ i)
    ∧ (i < get_sensors_count d →
        ∃ sensor, d._sensors[i]? = some sensor ∧ (get_sensor d i).result = .ok sensor)
    ∧ (get_sensor d i).device_after = d := by
  have hc : get_sensors_count d = d._sensors.length := by
    unfold get_sensors_count
    exact to_unsigned_int_of_range _ hlen
  rw [hc]
  refine ⟨rfl, ?_⟩
  by_cases h : i < d._sensors.length
  · have hn : ¬ d._sensors.length ≤ i := by omega
    rw [get_sensor_of_lt d i h]
    simp [hn, h]
  · have hge : d._sensors.length ≤ i := by omega
    rw [get_sensor_of_ge d i hge]
    simp [hge, h]

theorem get_sensor_in_and_out_of_bounds_witness :
    [(41 : sensor_ptr), 42, 43].length < 2 ^ 32
    ∧ (get_sensor ({ device.construct (0 : Nat) false with _sensors := [41, 42, 43] }) 3).result
        = .error exception.invalid_subdevice_value
    ∧ (get_sensor ({ device.construct (0 : Nat) false with _sensors := [41, 42, 43] }) 2).result
        = .ok 43 :=
  ⟨by decide,
   ((get_sensor_in_and_out_of_bounds
      ({ device.construct (0 : Nat) false with _sensors := [41, 42, 43] }) 3
      (by decide)).2.1).mpr (by decide),
   by
    obtain ⟨sensor, h1, h2⟩ :=
      (get_sensor_in_and_out_of_bounds
        ({ device.construct (0 : Nat) false with _sensors := [41, 42, 43] }) 2
        (by decide)).2.2.2.1 (by decide)
    have h3 : sensor = 43 := by
      have : (some 43 : Option sensor_ptr) = some sensor := h1
      exact (Option.some.inj this).symm
    rw [h2, h3]⟩

/-- C12: for a sensor sequence of length `n`, with `n + 1` in the range of
`int`, and every sensor `s` (present already or not), `add_sensor(s)` returns
`n`, and afterwards the sequence is the old one followed by `s`:
`get_sensors_count()` is `n + 1`, `get_sensor(n)` is `s`, and `get_sensor(i)`
is as before for every `i < n`. -/
theorem add_sensor_appends (d : device Group) (s : sensor_ptr)
    (hlen : d._sensors.length + 1 < 2 ^ 31) :
    (add_sensor d s).result = .ok (d._sensors.length : Int)
    ∧ (add_sensor d s).device_after._sensors = d._sensors ++ [s]
    ∧ get_sensors_count (add_sensor d s).device_after = d._sensors.length + 1
    ∧ (get_sensor (add_sensor d s).device_after d._sensors.length).result = .ok s
    ∧ (∀ i, i < d._sensors.length →
        (get_sensor (add_sensor d s).device_after i).result = (get_sensor d i).result) := by
  have hafter : (add_sensor d s).device_after._sensors = d._sensors ++ [s] := rfl
  refine ⟨?_, hafter, ?_, ?_, ?_⟩
  · have h1 : to_int ((d._sensors.length : Int) + 1) = (d._sensors.length : Int) + 1 := by
      apply to_int_of_range <;> norm_num at hlen ⊢ <;> omega
    have h2 : to_int (d._sensors.length : Int) = (d._sensors.length : Int) := by
      apply to_int_of_range <;> norm_num at hlen ⊢ <;> omega
    simp [add_sensor, h1, h2]
  · unfold get_sensors_count
    rw [hafter, to_unsigned_int_of_range]
    · simp
    · simp only [List.length_append, List.length_singleton]
      norm_num at hlen ⊢
      omega
  · rw [get_sensor_of_lt _ _ (by rw [hafter]; simp)]
    simp [hafter]
  · intro i hi
    rw [get_sensor_of_lt _ _ (by rw [hafter]; simp; omega), get_sensor_of_lt d i hi]
    simp [hafter, List.getElem_append_left hi]

theorem add_sensor_appends_witness :
    [(41 : sensor_ptr), 42].length + 1 < 2 ^ 31
    ∧ (add_sensor ({ device.construct (0 : Nat) false with _sensors := [41, 42] }) 41).result
        = .ok 2
    ∧ (add_sensor ({ device.construct (0 : Nat) false with _sensors := [41, 42] })
        41).device_after._sensors = [41, 42, 41] :=
  have h := add_sensor_appends
    ({ device.construct (0 : Nat) false with _sensors := [41, 42] }) 41 (by decide)
  ⟨by decide, h.1, h.2.1⟩

theorem assign_sensor_try_never_throws (d : device Group) (s : sensor_ptr) (idx : Nat)
    (out : call_outcome Group Int) (h : assign_sensor_try d s idx = some out) :
    ∃ r, out.result = .ok r := by
  unfold assign_sensor_try at h
  split at h
  · cases h
    exact ⟨_, rfl⟩
  · cases h

/-- The handler of `assign_sensor` is never entered: whatever the call returns,
it is not the invalid-value exception (nor any other). -/
theorem assign_sensor_never_throws (d : device Group) (s : sensor_ptr) (idx : Nat)
    (out : call_outcome Group Int) (h : assign_sensor d s idx = some out) :
    ∃ r, out.result = .ok r := by
  unfold assign_sensor at h
  cases ht : assign_sensor_try d s (to_uint8_t idx) with
  | none => simp [ht] at h
  | some o =>
    obtain ⟨r, hr⟩ := assign_sensor_try_never_throws d s _ o ht
    simp only [ht, hr] at h
    cases h
    exact ⟨r, hr⟩

/-- An index outside the sequence reaches `_sensors[idx]`, whose behaviour is
undefined there; no exception is thrown. -/
theorem assign_sensor_out_of_bounds (d : device Group) (s : sensor_ptr) (idx : Nat)
    (hidx : idx < 2 ^ 8) (hout : d._sensors.length ≤ idx) :
    assign_sensor d s idx = none := by
  have hn : ¬ idx < d._sensors.length := by omega
  simp [assign_sensor, assign_sensor_try, to_uint8_t_of_range idx hidx, hn]

/-- C13, on the code: on a device with no sensor, `assign_sensor(s, 0)` does not
fail with the invalid-value error; it indexes the empty vector with
`operator[]`, which is undefined behaviour. -/
theorem assign_sensor_empty_is_undefined :
    assign_sensor (device.construct (0 : Nat) false) 41 0 = none := by
  rfl

theorem assign_sensor_of_lt (d : device Group) (s : sensor_ptr) (idx : Nat)
    (hidx : idx < d._sensors.length) (hu8 : idx < 2 ^ 8)
    (hlen : d._sensors.length < 2 ^ 31) :
    assign_sensor d s idx
      = some { result := .ok ((d._sensors.length : Int) - 1),
               device_after := { d with _sensors := d._sensors.set idx s } } := by
  have h1 : to_int (d._sensors.length : Int) = (d._sensors.length : Int) := by
    apply to_int_of_range <;> norm_num at hlen ⊢ <;> omega
  have h2 : to_int ((d._sensors.length : Int) - 1) = (d._sensors.length : Int) - 1 := by
    apply to_int_of_range <;> norm_num at hlen ⊢ <;> omega
  simp [assign_sensor, assign_sensor_try, to_uint8_t_of_range idx hu8, hidx, h1, h2]

/-- C17: for a sensor sequence of length `n` in the range of `int` and an index
`idx < n` (a `uint8_t` value), `assign_sensor(s, idx)` returns `n - 1`, makes
slot `idx` hold `s`, and leaves every other slot and the length as they
were. -/
theorem assign_sensor_overwrites_slot (d : device Group) (s : sensor_ptr) (idx : Nat)
    (hidx : idx < d._sensors.length) (hu8 : idx < 2 ^ 8)
    (hlen : d._sensors.length < 2 ^ 31) :
    ∃ out, assign_sensor d s idx = some out
      ∧ out.result = .ok ((d._sensors.length : Int) - 1)
      ∧ out.device_after._sensors[idx]? = some s
      ∧ (∀ j, j ≠ idx → out.device_after._sensors[j]? = d._sensors[j]?)
      ∧ out.device_after._sensors.length = d._sensors.length := by
  refine ⟨_, assign_sensor_of_lt d s idx hidx hu8 hlen, rfl, ?_, ?_, ?_⟩
  · simp [hidx]
  · intro j hj
    simp [List.getElem?_set, Ne.symm hj]
  · simp

theorem assign_sensor_overwrites_slot_witness :
    (1 < [(41 : sensor_ptr), 42, 43].length ∧ 1 < 2 ^ 8
      ∧ [(41 : sensor_ptr), 42, 43].length < 2 ^ 31)
    ∧ ∃ out,
      assign_sensor ({ device.construct (0 : Nat) false with _sensors := [41, 42, 43] }) 50 1
        = some out
      ∧ out.result = .ok (([(41 : sensor_ptr), 42, 43].length : Int) - 1)
      ∧ out.device_after._sensors[1]? = some 50
      ∧ (∀ j, j ≠ 1 → out.device_after._sensors[j]? = [(41 : sensor_ptr), 42, 43][j]?)
      ∧ out.device_after._sensors.length = [(41 : sensor_ptr), 42, 43].length :=
  ⟨by decide,
   assign_sensor_overwrites_slot
     ({ device.construct (0 : Nat) false with _sensors := [41, 42, 43] }) 50 1
     (by decide) (by decide) (by decide)⟩

theorem find_sensor_idx_loop_of_not_mem (s : sensor_ptr) (l : List sensor_ptr) :
    ∀ idx : Int, s ∉ l → find_sensor_idx_loop s l idx = .error exception.sensor_not_found := by
  induction l with
  | nil => intro idx _; rfl
  | cons hd tl ih =>
    intro idx hs
    have h1 : ¬ s = hd := fun h => hs (by simp [h])
    have h2 : s ∉ tl := fun h => hs (by simp [h])
    unfold find_sensor_idx_loop
    simp only [h1, if_false]
    exact ih _ h2

theorem find_sensor_idx_loop_of_mem (s : sensor_ptr) (l : List sensor_ptr) :
    ∀ idx : Nat, idx + l.length < 2 ^ 31 → s ∈ l →
      ∃ i, find_sensor_idx_loop s l (idx : Int) = .ok (idx + i)
        ∧ l[i]? = some s ∧ ∀ j, j < i → l[j]? ≠ some s := by
  induction l with
  | nil => intro idx _ hs; simp at hs
  | cons hd tl ih =>
    intro idx hb hs
    unfold find_sensor_idx_loop
    by_cases h1 : s = hd
    · refine ⟨0, ?_, by simp [h1], by simp⟩
      simp only [h1, if_true]
      rw [to_size_t_of_nat idx (by norm_num at hb ⊢; omega)]
      rfl
    · have hs2 : s ∈ tl := by
        rcases List.mem_cons.mp hs with h | h
        · exact absurd h h1
        · exact h
      have hb2 : (idx + 1) + tl.length < 2 ^ 31 := by
        simp only [List.length_cons] at hb
        omega
      obtain ⟨i, hi1, hi2, hi3⟩ := ih (idx + 1) hb2 hs2
      have hcast : to_int ((idx : Int) + 1) = ((idx + 1 : Nat) : Int) := by
        rw [to_int_of_range]
        · push_cast; rfl
        · norm_num; omega
        · norm_num at hb2 ⊢; omega
      refine ⟨i + 1, ?_, by simpa using hi2, ?_⟩
      · simp only [h1, if_false]
        rw [hcast, hi1]
        have hsum : idx + 1 + i = idx + (i + 1) := by omega
        rw [hsum]
      · intro j hj
        cases j with
        | zero => simpa using fun h => h1 h.symm
        | succ j => simpa using hi3 j (by omega)

/-- C14: for a sensor sequence with length in the range of `int` and every
sensor handle `s`, `find_sensor_idx(s)` fails, and then with the
sensor-not-found error, exactly when no slot holds `s`; otherwise it returns
the smallest index whose slot holds `s`. The device, and so the sequence, is
left as it was. -/
theorem find_sensor_idx_first_slot (d : device Group) (s : sensor_ptr)
    (hlen : d._sensors.length < 2 ^ 31) :
    ((find_sensor_idx d s).result = .error exception.sensor_not_found ↔ s ∉ d._sensors)
    ∧ ((∃ e, (find_sensor_idx d s).result = .error e) ↔ s ∉ d._sensors)
    ∧ (s ∈ d._sensors →
        ∃ i, (find_sensor_idx d s).result = .ok i
          ∧ d._sensors[i]? = some s ∧ ∀ j, j < i → d._sensors[j]? ≠ some s)
    ∧ (find_sensor_idx d s).device_after = d := by
  have hres : (find_sensor_idx d s).result = find_sensor_idx_loop s d._sensors ((0 : Nat) : Int) :=
    rfl
  have hfound : s ∈ d._sensors →
      ∃ i, (find_sensor_idx d s).result = .ok i
        ∧ d._sensors[i]? = some s ∧ ∀ j, j < i → d._sensors[j]? ≠ some s := by
    intro hs
    obtain ⟨i, h1, h2, h3⟩ := find_sensor_idx_loop_of_mem s d._sensors 0 (by omega) hs
    exact ⟨i, by rw [hres, h1]; simp, h2, h3⟩
  have hmissing : s ∉ d._sensors →
      (find_sensor_idx d s).result = .error exception.sensor_not_found := by
    intro hs
    rw [hres]
    exact find_sensor_idx_loop_of_not_mem s d._sensors _ hs
  refine ⟨⟨?_, hmissing⟩, ⟨?_, fun hs => ⟨_, hmissing hs⟩⟩, hfound, rfl⟩
  · intro herr hs
    obtain ⟨i, h1, _, _⟩ := hfound hs
    rw [h1] at herr
    cases herr
  · rintro ⟨e, herr⟩ hs
    obtain ⟨i, h1, _, _⟩ := hfound hs
    rw [h1] at herr
    cases herr

theorem find_sensor_idx_first_slot_witness :
    [(41 : sensor_ptr), 42, 43, 42].length < 2 ^ 31
    ∧ (41 : sensor_ptr) ∈ [(41 : sensor_ptr), 42, 43, 42]
    ∧ (44 : sensor_ptr) ∉ [(41 : sensor_ptr), 42, 43, 42]
    ∧ (find_sensor_idx
        ({ device.construct (0 : Nat) false with _sensors := [41, 42, 43, 42] }) 44).result
        = .error exception.sensor_not_found
    ∧ ∃ i, (find_sensor_idx
        ({ device.construct (0 : Nat) false with _sensors := [41, 42, 43, 42] }) 41).result
        = .ok i :=
  ⟨by decide, by decide, by decide,
   ((find_sensor_idx_first_slot
      ({ device.construct (0 : Nat) false with _sensors := [41, 42, 43, 42] }) 44
      (by decide)).1).mpr (by decide),
   by
    obtain ⟨i, h, _, _⟩ :=
      (find_sensor_idx_first_slot
        ({ device.construct (0 : Nat) false with _sensors := [41, 42, 43, 42] }) 41
        (by decide)).2.2.1 (by decide)
    exact ⟨i, h⟩⟩

/-- C15: on the base device, `hardware_reset()` fails with the not-implemented
error whatever the device state is (validity, sensor sequence, registry), and
leaves the device as it was. -/
theorem hardware_reset_not_implemented (d : device Group) :
    (hardware_reset d).result = .error exception.not_implemented
    ∧ (hardware_reset d).device_after = d :=
  ⟨rfl, rfl⟩

/-- C16: for every frame, `device::create_matcher` returns one identity matcher,
bound to the unique id and the stream type of the stream of the frame; it is
what `matcher_factory::create_identity_matcher` builds for that stream, and it
is the same on every device (any sensors, registry and validity). -/
theorem create_matcher_is_identity (d : device Group) (frame : frame_holder) :
    create_matcher d frame
      = matcher.identity_matcher frame.frame.get_stream.get_unique_id
          frame.frame.get_stream.get_stream_type
    ∧ create_matcher d frame = matcher_factory.create_identity_matcher frame.frame.get_stream
    ∧ ∀ d0 : device Group, create_matcher d0 frame = create_matcher d frame :=
  ⟨rfl, rfl, fun _ => rfl⟩

end

/-! ## Device: what a registration writes, and lookups without an entry -/

section
variable {Group : Type} {Extr : Type}

theorem map_assign_filter_other (m : extrinsics_map) (k : Int) (v : extrinsics_entry) :
    (map_assign m k v).filter (fun e => e.1 != k) = m.filter (fun e => e.1 != k) := by
  induction m with
  | nil => simp [map_assign]
  | cons hd tl ih =>
    obtain ⟨k', v'⟩ := hd
    unfold map_assign
    by_cases h1 : k < k'
    · simp [h1]
    · by_cases h2 : k = k'
      · subst h2
        simp
      · simp only [h1, h2, if_false]
        rw [List.filter_cons, List.filter_cons, ih]

/-- C19: for every registry, stream `s` and group index `g`,
`register_stream_to_extrinsic_group(s, g)` writes the entry keyed by the unique
id of `s` and no other: afterwards that entry carries group index `g`, the
entry of every other id is what it was (present with the same group index and
representative, or absent), the entries of the other ids are the same sequence
as before, and the other members of the device are untouched. -/
theorem register_writes_one_entry (d : device Group) (s : stream_interface) (g : Nat) :
    (∃ r, map_at (register_stream_to_extrinsic_group d s g)._extrinsics s.get_unique_id
        = some (g, r))
    ∧ (∀ k, k ≠ s.get_unique_id →
        map_at (register_stream_to_extrinsic_group d s g)._extrinsics k
          = map_at d._extrinsics k)
    ∧ (register_stream_to_extrinsic_group d s g)._extrinsics.filter
          (fun e => e.1 != s.get_unique_id)
        = d._extrinsics.filter (fun e => e.1 != s.get_unique_id)
    ∧ (register_stream_to_extrinsic_group d s g)._sensors = d._sensors
    ∧ (register_stream_to_extrinsic_group d s g)._is_valid = d._is_valid := by
  cases hf : d._extrinsics.find? (fun p => p.2.1 == g) with
  | none =>
    refine ⟨⟨s, ?_⟩, ?_, ?_, ?_, ?_⟩
    · rw [register_of_not_found d s g hf]
      exact map_at_map_assign_self _ _ _
    · intro k hk
      rw [register_of_not_found d s g hf]
      exact map_at_map_assign_of_ne _ _ _ _ hk
    · rw [register_of_not_found d s g hf]
      exact map_assign_filter_other _ _ _
    · simp [register_stream_to_extrinsic_group, hf]
    · simp [register_stream_to_extrinsic_group, hf]
  | some it =>
    have hitg : it.2.1 = g := by simpa using List.find?_some hf
    refine ⟨⟨it.2.2, ?_⟩, ?_, ?_, ?_, ?_⟩
    · rw [register_of_found d s g it hf, ← hitg]
      exact map_at_map_assign_self _ _ _
    · intro k hk
      rw [register_of_found d s g it hf]
      exact map_at_map_assign_of_ne _ _ _ _ hk
    · rw [register_of_found d s g it hf]
      exact map_assign_filter_other _ _ _
    · simp [register_stream_to_extrinsic_group, hf]
    · simp [register_stream_to_extrinsic_group, hf]

/-- C20: for every registry and every stream whose unique id has no entry,
`get_extrinsics(stream)` fails (with the `std::out_of_range` of `at`), makes no
call to the calibration graph, and leaves the device, and so the registry,
as it was. -/
theorem get_extrinsics_unregistered
    (try_fetch_extrinsics : stream_interface → stream_interface → Bool × Extr)
    (d : device Group) (stream : stream_interface)
    (h : map_at d._extrinsics stream.get_unique_id = none) :
    (get_extrinsics try_fetch_extrinsics d stream).result = .error exception.out_of_range
    ∧ (get_extrinsics try_fetch_extrinsics d stream).graph_queries = []
    ∧ (get_extrinsics try_fetch_extrinsics d stream).device_after = d
    ∧ (get_extrinsics try_fetch_extrinsics d stream).device_after._extrinsics
        = d._extrinsics := by
  simp [get_extrinsics, h]

theorem get_extrinsics_unregistered_witness :
    map_at (device.construct (0 : Nat) false)._extrinsics
        (stream_interface.mk 100 1 1).get_unique_id = none
    ∧ (get_extrinsics (fun _ _ => (true, (7 : Nat))) (device.construct (0 : Nat) false)
        (stream_interface.mk 100 1 1)).result = .error exception.out_of_range
    ∧ (get_extrinsics (fun _ _ => (true, (7 : Nat))) (device.construct (0 : Nat) false)
        (stream_interface.mk 100 1 1)).graph_queries = [] :=
  have h := get_extrinsics_unregistered (fun _ _ => (true, (7 : Nat)))
    (device.construct (0 : Nat) false) (stream_interface.mk 100 1 1) (by decide)
  ⟨by decide, h.1, h.2.1⟩

end

/-! ## Device: the validity flag over time -/

section
variable {Group : Type} [DecidableEq Group]

theorem deliver_notification_keeps_invalid (d : device Group)
    (removed added : rs2_device_list Group) (h : d._is_valid = false) :
    (deliver_notification d removed added)._is_valid = false := by
  unfold deliver_notification
  split
  · rw [← Bool.not_eq_true]
    intro hv
    have := ((scan_removed_is_valid_iff d removed.list).mp hv).1
    rw [h] at this
    cases this
  · exact h

theorem deliver_all_keeps_invalid
    (ns : List (rs2_device_list Group × rs2_device_list Group)) :
    ∀ d : device Group, d._is_valid = false → (deliver_all d ns)._is_valid = false := by
  induction ns with
  | nil => intro d h; simpa [deliver_all] using h
  | cons n ns ih =>
    intro d h
    have hstep := deliver_notification_keeps_invalid d n.1 n.2 h
    simpa [deliver_all] using ih _ hstep

theorem deliver_all_append (d : device Group)
    (before after : List (rs2_device_list Group × rs2_device_list Group)) :
    deliver_all d (before ++ after) = deliver_all (deliver_all d before) after := by
  simp [deliver_all, List.foldl_append]

theorem deliver_all_ignores_added
    (ns : List (rs2_device_list Group × rs2_device_list Group)) :
    ∀ (ms : List (rs2_device_list Group × rs2_device_list Group)) (d : device Group),
      ns.map Prod.fst = ms.map Prod.fst → deliver_all d ns = deliver_all d ms := by
  induction ns with
  | nil =>
    intro ms d h
    cases ms with
    | nil => rfl
    | cons m ms => simp at h
  | cons n ns ih =>
    intro ms d h
    cases ms with
    | nil => simp at h
    | cons m ms =>
      simp only [List.map_cons, List.cons.injEq] at h
      have hstep : deliver_notification d n.1 n.2 = deliver_notification d m.1 m.2 := by
        simp [deliver_notification, devices_changed_callback, h.1]
      have hrest := ih ms (deliver_notification d n.1 n.2) h.2
      simp only [deliver_all, List.foldl_cons] at hrest ⊢
      rw [hrest, hstep]

/-- C18: the validity flag never goes from false back to true. A constructed
device starts valid; for every device and every sequence of change
notifications, if the flag is false after the notifications `before`, it is
false after `before` followed by any further notifications `after`; and two
notification sequences with the same removed lists leave the same device,
whatever their added lists hold. -/
theorem validity_never_restored (d : device Group)
    (before after : List (rs2_device_list Group × rs2_device_list Group))
    (hcleared : (deliver_all d before)._is_valid = false) :
    (deliver_all d (before ++ after))._is_valid = false
    ∧ (∀ (group : Group) (notifications : Bool),
        (device.construct group notifications)._is_valid = true)
    ∧ (∀ ns ms : List (rs2_device_list Group × rs2_device_list Group),
        ns.map Prod.fst = ms.map Prod.fst → deliver_all d ns = deliver_all d ms) := by
  refine ⟨?_, fun _ _ => rfl, fun ns ms h => deliver_all_ignores_added ns ms d h⟩
  rw [deliver_all_append]
  exact deliver_all_keeps_invalid after _ hcleared

theorem validity_never_restored_witness :
    (deliver_all (device.construct (7 : Nat) true)
        [(⟨[⟨3⟩]⟩, ⟨[⟨7⟩]⟩), (⟨[⟨3⟩, ⟨7⟩, ⟨7⟩]⟩, ⟨[]⟩)])._is_valid = false
    ∧ (deliver_all (device.construct (7 : Nat) true)
        ([(⟨[⟨3⟩]⟩, ⟨[⟨7⟩]⟩), (⟨[⟨3⟩, ⟨7⟩, ⟨7⟩]⟩, ⟨[]⟩)]
          ++ [(⟨[]⟩, ⟨[⟨7⟩]⟩), (⟨[⟨5⟩]⟩, ⟨[⟨7⟩]⟩)]))._is_valid = false :=
  ⟨by decide,
   (validity_never_restored (device.construct (7 : Nat) true)
      [(⟨[⟨3⟩]⟩, ⟨[⟨7⟩]⟩), (⟨[⟨3⟩, ⟨7⟩, ⟨7⟩]⟩, ⟨[]⟩)]
      [(⟨[]⟩, ⟨[⟨7⟩]⟩), (⟨[⟨5⟩]⟩, ⟨[⟨7⟩]⟩)] (by decide)).1⟩

end

end librealsense
